import Mathlib

/-
  Shallow embedding of the QualityAssessor repository
  (GRADE, Cochrane RoB 2.0 and ROBINS-I assessment engines).

  Sources embedded:
    src/quality_assessor/grade_assessor.py        (GRADEAssessor)
    src/quality_assessor/cochrane_rob_assessor.py (CochraneRoBAssessor)
    src/quality_assessor/robins_i_assessor.py     (ROBINSIAssessor)

  The assessors receive their model classes (enums, record classes) and the
  exception class by dependency injection; the enumerations below instantiate
  them with the member sets used by the package wiring (src/__init__.py) and
  the test fixtures (src/tests/*), which coincide with the vocabularies of the
  specification.  Python floats that only flow through the records unchanged
  are modelled as rationals; Python dicts built by insertion are modelled as
  association lists with last-write-wins lookup.
-/

namespace QA

/-- Cochrane RoB 2.0 judgment enum (RoBJudgment in the injected models). -/
inductive RoBJudgment
  | low
  | some_concerns
  | high
deriving DecidableEq, Repr

/-- ROBINS-I level enum (ROBINSILevel in the injected models). -/
inductive ROBINSILevel
  | low
  | moderate
  | serious
  | critical
  | no_information
deriving DecidableEq, Repr

/-- GRADE certainty level enum (GRADELevel in the injected models). -/
inductive GRADELevel
  | high
  | moderate
  | low
  | very_low
deriving DecidableEq, Repr

/-- Study design enum (StudyDesign in the injected models). -/
inductive StudyDesign
  | RCT
  | COHORT
  | CASE_CONTROL
  | CROSS_SECTIONAL
  | CASE_SERIES
  | SYSTEMATIC_REVIEW
  | META_ANALYSIS
  | OTHER
deriving DecidableEq, Repr

/-- The `.value` string of a StudyDesign member, per the test fixtures. -/
def StudyDesign.value : StudyDesign → String
  | .RCT => "randomized_controlled_trial"
  | .COHORT => "cohort_study"
  | .CASE_CONTROL => "case_control"
  | .CROSS_SECTIONAL => "cross_sectional"
  | .CASE_SERIES => "case_series"
  | .SYSTEMATIC_REVIEW => "systematic_review"
  | .META_ANALYSIS => "meta_analysis"
  | .OTHER => "other"

/-- A study-design argument as the Python code may receive it: either a member
of the injected StudyDesign enum, or an arbitrary value outside that enum
(Python imposes no type on `characteristics.study_design`). -/
inductive DesignInput
  | known : StudyDesign → DesignInput
  | unknown : String → DesignInput
deriving DecidableEq, Repr

/-- Python str() of a design argument, used in interpolated error messages. -/
def DesignInput.pyStr : DesignInput → String
  | .known d => "StudyDesign." ++ (match d with
      | .RCT => "RCT"
      | .COHORT => "COHORT"
      | .CASE_CONTROL => "CASE_CONTROL"
      | .CROSS_SECTIONAL => "CROSS_SECTIONAL"
      | .CASE_SERIES => "CASE_SERIES"
      | .SYSTEMATIC_REVIEW => "SYSTEMATIC_REVIEW"
      | .META_ANALYSIS => "META_ANALYSIS"
      | .OTHER => "OTHER")
  | .unknown s => s

/-- Parse a raw string into a RoBJudgment, mirroring `RoBJudgment(raw)` which
raises ValueError when no member has that value. -/
def RoBJudgment.parse : String → Option RoBJudgment
  | "low" => some .low
  | "some_concerns" => some .some_concerns
  | "high" => some .high
  | _ => none

/-- Parse a raw string into a ROBINSILevel, mirroring `ROBINSILevel(raw)`. -/
def ROBINSILevel.parse : String → Option ROBINSILevel
  | "low" => some .low
  | "moderate" => some .moderate
  | "serious" => some .serious
  | "critical" => some .critical
  | "no_information" => some .no_information
  | _ => none

/-- Parse a raw string into a GRADELevel, mirroring `GRADELevel(raw)`. -/
def GRADELevel.parse : String → Option GRADELevel
  | "high" => some .high
  | "moderate" => some .moderate
  | "low" => some .low
  | "very_low" => some .very_low
  | _ => none

/-- Member values of the injected Cochrane RoBDomain enum (test fixtures).
The injected domain enum is string-valued; a domain is represented by its
value string, so `RoBDomain(raw)` becomes a membership check. -/
def robDomainValues : List String :=
  ["randomization", "deviations_from_intended_interventions",
   "missing_outcome_data", "measurement_of_outcome",
   "selection_of_reported_result"]

/-- Mirrors `RoBDomain(raw)`: the member whose value is `raw`, ValueError
(`none`) otherwise. -/
def parseRoBDomain (raw : String) : Option String :=
  if raw ∈ robDomainValues then some raw else none

/-- Member values of the injected ROBINSIDomain enum (test fixtures). -/
def robinsDomainValues : List String :=
  ["confounding", "selection_of_participants", "classification_of_interventions",
   "deviations_from_interventions", "missing_data", "measurement_of_outcomes",
   "selection_of_reported_results"]

/-- Mirrors `ROBINSIDomain(raw)`. -/
def parseROBINSIDomain (raw : String) : Option String :=
  if raw ∈ robinsDomainValues then some raw else none

/-- GRADE domain enum (GRADEDomain in the injected models, test fixtures). -/
inductive GRADEDomain
  | risk_of_bias
  | inconsistency
  | indirectness
  | imprecision
  | publication_bias
deriving DecidableEq, Repr

/-- Mirrors `GRADEDomain(raw)`. -/
def GRADEDomain.parse : String → Option GRADEDomain
  | "risk_of_bias" => some .risk_of_bias
  | "inconsistency" => some .inconsistency
  | "indirectness" => some .indirectness
  | "imprecision" => some .imprecision
  | "publication_bias" => some .publication_bias
  | _ => none

/-- The `.value` string of a GRADEDomain member. -/
def GRADEDomain.value : GRADEDomain → String
  | .risk_of_bias => "risk_of_bias"
  | .inconsistency => "inconsistency"
  | .indirectness => "indirectness"
  | .imprecision => "imprecision"
  | .publication_bias => "publication_bias"

/-- Cochrane RoBDomainAssessment record: {domain, judgment, justification,
confidence, key_evidence}. -/
structure RoBDomainAssessment where
  domain : String
  judgment : RoBJudgment
  justification : String
  confidence : ℚ
  key_evidence : List String
deriving DecidableEq, Repr

/-- Python dict lookup `{d.domain: d.judgment for d in ds}.get(name)`:
the judgment of the last element carrying that domain (later dict writes
overwrite earlier ones), `none` when the domain is absent. -/
def domainMapGet (ds : List RoBDomainAssessment) (name : String) :
    Option RoBJudgment :=
  (ds.reverse.find? (fun d => d.domain == name)).map (fun d => d.judgment)

/-- The two critical Cochrane domains (cochrane_rob_assessor.py line 222). -/
def criticalDomainNames : List String :=
  ["randomization", "deviations_from_intended_interventions"]

/-- Mirrors `domain_map.get(domain) in [SOME_CONCERNS, HIGH]` (a missing
domain yields None, which is not in the list). -/
def isConcern : Option RoBJudgment → Bool
  | some j => j == RoBJudgment.some_concerns || j == RoBJudgment.high
  | none => false

/-- Number of critical domains whose looked-up judgment is some_concerns or
high (cochrane_rob_assessor.py lines 223-226). -/
def criticalConcerns (ds : List RoBDomainAssessment) : ℕ :=
  (criticalDomainNames.filter (fun name => isConcern (domainMapGet ds name))).length

/-- CochraneRoBAssessor._apply_rob_algorithm (lines 185-253): overall risk
from the list of domain assessments. -/
def applyRobAlgorithm (ds : List RoBDomainAssessment) : RoBJudgment :=
  let domain_risks := ds.map (fun d => d.judgment)
  if RoBJudgment.high ∈ domain_risks then
    RoBJudgment.high
  else if 2 ≤ criticalConcerns ds then
    RoBJudgment.high
  else if RoBJudgment.some_concerns ∈ domain_risks then
    if 3 ≤ domain_risks.count RoBJudgment.some_concerns then
      RoBJudgment.high
    else
      RoBJudgment.some_concerns
  else
    RoBJudgment.low

/-- ROBINS-I domain assessment record. -/
structure ROBINSIDomainAssessment where
  domain : String
  level : ROBINSILevel
  justification : String
  confidence : ℚ
  key_evidence : List String
  signaling_questions : List String
deriving DecidableEq, Repr

/-- ROBINSIAssessor._apply_robins_i_algorithm (lines 229-275): worst-domain
rule evaluated in the fixed sequence critical, serious, moderate,
no_information, low. -/
def applyRobinsIAlgorithm (ds : List ROBINSIDomainAssessment) : ROBINSILevel :=
  let domain_levels := ds.map (fun d => d.level)
  if ROBINSILevel.critical ∈ domain_levels then
    ROBINSILevel.critical
  else if ROBINSILevel.serious ∈ domain_levels then
    ROBINSILevel.serious
  else if ROBINSILevel.moderate ∈ domain_levels then
    ROBINSILevel.moderate
  else if ROBINSILevel.no_information ∈ domain_levels then
    ROBINSILevel.no_information
  else
    ROBINSILevel.low

/-- Severity rank of a ROBINS-I level under the fixed total order
critical > serious > moderate > no_information > low stated by the spec. -/
def ROBINSILevel.rank : ROBINSILevel → ℕ
  | .low => 0
  | .no_information => 1
  | .moderate => 2
  | .serious => 3
  | .critical => 4

/-- Maximum of two ROBINS-I levels under the spec order (ties keep the left
argument; rank is injective so ties are equalities). -/
def maxLevel (a b : ROBINSILevel) : ROBINSILevel :=
  if ROBINSILevel.rank b ≤ ROBINSILevel.rank a then a else b

/-- The ValueError message raised by _determine_starting_level for a design
absent from the table (grade_assessor.py lines 227-230). -/
def unsupportedDesignMsg (s : String) : String :=
  "Unknown or unsupported study design: " ++ s ++
    ". Supported designs: [StudyDesign.RCT, StudyDesign.COHORT, " ++
    "StudyDesign.CASE_CONTROL, StudyDesign.CROSS_SECTIONAL, " ++
    "StudyDesign.CASE_SERIES, StudyDesign.SYSTEMATIC_REVIEW, " ++
    "StudyDesign.META_ANALYSIS, StudyDesign.OTHER]"

/-- GRADEAssessor._determine_starting_level (lines 193-234): fixed lookup
table over the StudyDesign enum; any design outside the table raises
ValueError (modelled as the error branch).  The table covers every member of
the injected enum, so only a value outside the enum can miss it. -/
def determineStartingLevel (design : DesignInput) :
    Except String GRADELevel :=
  match design with
  | .known .RCT => .ok .high
  | .known .COHORT => .ok .low
  | .known .CASE_CONTROL => .ok .low
  | .known .CROSS_SECTIONAL => .ok .very_low
  | .known .CASE_SERIES => .ok .very_low
  | .known .SYSTEMATIC_REVIEW => .ok .low
  | .known .META_ANALYSIS => .ok .high
  | .known .OTHER => .ok .very_low
  | .unknown s => .error (unsupportedDesignMsg s)

/-- Original exceptions that the except-handlers of assess_study may catch:
a KeyError on a missing dict key, a ValueError (bad enum value, bad float,
or the starting-level ValueError), or any other exception. -/
inductive PyCause
  | keyError (key : String)
  | valueError (msg : String)
  | otherExc (msg : String)
deriving DecidableEq, Repr

/-- Errors escaping an assess_study call.  `valueError` is a ValueError
propagating directly (the input null checks sit before the try block, so
their ValueError is never caught).  `assessmentError` is an instance of the
injected exception class (AssessmentError in the package wiring); its
`cause` field models Python __cause__: `none` for the bare applicability
raise, `some c` for the except-handler raises that use `raise ... from e`. -/
inductive AssessErr
  | valueError (msg : String)
  | assessmentError (msg : String) (cause : Option PyCause)
deriving DecidableEq, Repr

/-- A Python argument as seen by the truthiness checks `if not paper: ...`:
None, an object whose truth value is False, or a truthy object. -/
inductive Arg (α : Type)
  | pyNone
  | falsy (a : α)
  | truthy (a : α)
deriving DecidableEq, Repr

/-- Python truthiness of an argument. -/
def Arg.isTruthy {α : Type} : Arg α → Bool
  | .truthy _ => true
  | _ => false

/-- Parsed paper record: the fields assess_study reads. -/
structure Paper where
  paper_id : String
  title : Option String
  sections : List (String × String)
deriving DecidableEq, Repr

/-- Study characteristics record: the fields assess_study reads.  The four
text fields are optional and may also be present but empty (Python
`x or "not specified"` replaces empty strings too, hence the Option). -/
structure Characteristics where
  study_design : DesignInput
  population : Option String
  intervention_exposure : Option String
  comparator : Option String
  primary_outcome : Option String
deriving DecidableEq, Repr

/-- Python `x or dflt` on an optional string: the default replaces both an
absent value and an empty (falsy) string. -/
def pyOr (v : Option String) (dflt : String) : String :=
  match v with
  | none => dflt
  | some s => if s.isEmpty then dflt else s

/-- Outcome of `self.llm.complete_with_json(...)`: either the call raises
(any exception, caught by the generic handler) or it returns a response
dict; `json_data = none` models a response missing the json_data key. -/
inductive LLMOutcome (ρ : Type)
  | raises (msg : String)
  | returns (json_data : Option ρ)
deriving DecidableEq, Repr

/- ===== Cochrane RoB assess_study (cochrane_rob_assessor.py 49-183) ===== -/

/-- One entry of data["domains"] in a Cochrane response.  `none` in a field
models the corresponding dict key being absent (KeyError on access);
key_evidence is read with .get and a default. -/
structure RawRoBEntry where
  domain : Option String
  judgment : Option String
  justification : Option String
  confidence : Option ℚ
  key_evidence : List String
deriving DecidableEq, Repr

/-- The json_data dict of a Cochrane response. -/
structure RawRoBResponse where
  domains : Option (List RawRoBEntry)
  overall_risk : Option String
  summary : Option String
  overall_confidence : Option ℚ
deriving DecidableEq, Repr

/-- CochraneRoBAssessment record (overall risk, domain list, summary,
overall confidence). -/
structure CochraneRoBAssessment where
  overall_risk : RoBJudgment
  domain_assessments : List RoBDomainAssessment
  summary : String
  overall_confidence : ℚ
deriving DecidableEq, Repr

/-- Parse one domain entry, in the evaluation order of the Python loop body:
domain key, RoBDomain(...), judgment key, RoBJudgment(...), justification
key, confidence key. -/
def parseRoBEntry (e : RawRoBEntry) : Except PyCause RoBDomainAssessment := do
  let domRaw ← match e.domain with
    | some s => Except.ok s
    | none => Except.error (PyCause.keyError "domain")
  let dom ← match parseRoBDomain domRaw with
    | some d => Except.ok d
    | none => Except.error (PyCause.valueError (domRaw ++ " is not a valid RoBDomain"))
  let judRaw ← match e.judgment with
    | some s => Except.ok s
    | none => Except.error (PyCause.keyError "judgment")
  let jud ← match RoBJudgment.parse judRaw with
    | some j => Except.ok j
    | none => Except.error (PyCause.valueError (judRaw ++ " is not a valid RoBJudgment"))
  let just ← match e.justification with
    | some s => Except.ok s
    | none => Except.error (PyCause.keyError "justification")
  let conf ← match e.confidence with
    | some q => Except.ok q
    | none => Except.error (PyCause.keyError "confidence")
  Except.ok ⟨dom, jud, just, conf, e.key_evidence⟩

/-- Parse data["domains"] left to right, stopping at the first failure. -/
def parseRoBEntries : List RawRoBEntry → Except PyCause (List RoBDomainAssessment)
  | [] => Except.ok []
  | e :: es => do
      let d ← parseRoBEntry e
      let ds ← parseRoBEntries es
      Except.ok (d :: ds)

/-- The three except handlers of Cochrane assess_study (lines 169-183):
every exception raised inside the try block is re-raised as the injected
exception class wrapping the original cause. -/
def wrapRoB : PyCause → AssessErr
  | .keyError k =>
      .assessmentError ("Failed to parse RoB assessment: missing key " ++ k)
        (some (.keyError k))
  | .valueError m =>
      .assessmentError ("Invalid RoB assessment value: " ++ m)
        (some (.valueError m))
  | .otherExc m =>
      .assessmentError ("Cochrane RoB assessment failed: " ++ m)
        (some (.otherExc m))

/-- Body of the Cochrane try block once json_data is in hand (the section
extraction and prompt formatting touch only strings and cannot fail; the
modelled observable behaviour starts at the response).  The if-expression in
the record is the reconciliation of lines 148-155: a computed overall that
differs from the upstream one replaces it. -/
def cochraneTryBody (data : RawRoBResponse) :
    Except PyCause CochraneRoBAssessment :=
  match data.domains with
  | none => .error (.keyError "domains")
  | some entries =>
    match parseRoBEntries entries with
    | .error cause => .error cause
    | .ok domain_assessments =>
      match data.overall_risk with
      | none => .error (.keyError "overall_risk")
      | some riskRaw =>
        match RoBJudgment.parse riskRaw with
        | none => .error (.valueError (riskRaw ++ " is not a valid RoBJudgment"))
        | some overall_risk =>
          match data.summary with
          | none => .error (.keyError "summary")
          | some summary =>
            match data.overall_confidence with
            | none => .error (.keyError "overall_confidence")
            | some overall_confidence =>
              .ok ⟨(if applyRobAlgorithm domain_assessments ≠ overall_risk then
                      applyRobAlgorithm domain_assessments
                    else overall_risk),
                domain_assessments, summary, overall_confidence⟩

/-- CochraneRoBAssessor.assess_study: null checks (before everything, raising
a bare ValueError), RCT applicability check (before the try block and before
the upstream call, raising the exception class without a cause), then the
try block whose failures are wrapped by `wrapRoB`. -/
def cochraneAssess (paper : Arg Paper) (characteristics : Arg Characteristics)
    (llm : LLMOutcome RawRoBResponse) : Except AssessErr CochraneRoBAssessment :=
  match paper with
  | .truthy _ =>
    match characteristics with
    | .truthy c =>
      if c.study_design ≠ DesignInput.known StudyDesign.RCT then
        .error (.assessmentError
          ("Cochrane RoB 2.0 is only applicable to RCTs. Study design: " ++
            c.study_design.pyStr) none)
      else
        match llm with
        | .raises m => .error (wrapRoB (.otherExc m))
        | .returns none => .error (wrapRoB (.keyError "json_data"))
        | .returns (some data) =>
          match cochraneTryBody data with
          | .error cause => .error (wrapRoB cause)
          | .ok a => .ok a
    | _ => .error (.valueError "characteristics cannot be None")
  | _ => .error (.valueError "paper cannot be None")

/- ===== GRADE assess_study (grade_assessor.py 49-191) ===== -/

/-- One entry of data["domains"] in a GRADE response.  The rating is stored
raw (the source never converts it to an enum). -/
structure RawGRADEEntry where
  domain : Option String
  rating : Option String
  justification : Option String
  confidence : Option ℚ
  key_evidence : List String
deriving DecidableEq, Repr

/-- The json_data dict of a GRADE response. -/
structure RawGRADEResponse where
  starting_level : Option String
  domains : Option (List RawGRADEEntry)
  final_grade : Option String
  upgrades : Option (List (String × ℚ))
  summary : Option String
  overall_confidence : Option ℚ
deriving DecidableEq, Repr

/-- GRADEDomainAssessment record; the rating stays a raw string. -/
structure GRADEDomainAssessment where
  domain : GRADEDomain
  rating : String
  justification : String
  confidence : ℚ
  key_evidence : List String
deriving DecidableEq, Repr

/-- GRADEAssessment record. -/
structure GRADEAssessment where
  overall_certainty : GRADELevel
  starting_level : GRADELevel
  domain_assessments : List GRADEDomainAssessment
  total_downgrades : ℕ
  downgrades_by_domain : List (String × ℕ)
  upgrades : List (String × ℚ)
  summary : String
  overall_confidence : ℚ
deriving DecidableEq, Repr

/-- Python dict assignment `m[k] = v`: overwrite in place when the key
exists, append otherwise. -/
def dictSetNat (m : List (String × ℕ)) (k : String) (v : ℕ) :
    List (String × ℕ) :=
  if m.any (fun p => p.1 == k) then
    m.map (fun p => if p.1 == k then (k, v) else p)
  else
    m ++ [(k, v)]

/-- Downgrade tally of grade_assessor.py lines 144-152: rating "serious"
contributes 1, "very_serious" contributes 2, anything else 0; the mapping
keeps only domains that contributed. -/
def gradeDowngrades (ds : List GRADEDomainAssessment) :
    List (String × ℕ) × ℕ :=
  ds.foldl (fun acc d =>
    if d.rating == "serious" then
      (dictSetNat acc.1 d.domain.value 1, acc.2 + 1)
    else if d.rating == "very_serious" then
      (dictSetNat acc.1 d.domain.value 2, acc.2 + 2)
    else acc) ([], 0)

/-- Parse one GRADE domain entry in Python evaluation order (domain key,
GRADEDomain(...), then the constructor arguments). -/
def parseGRADEEntry (e : RawGRADEEntry) : Except PyCause GRADEDomainAssessment := do
  let domRaw ← match e.domain with
    | some s => Except.ok s
    | none => Except.error (PyCause.keyError "domain")
  let dom ← match GRADEDomain.parse domRaw with
    | some d => Except.ok d
    | none => Except.error (PyCause.valueError (domRaw ++ " is not a valid GRADEDomain"))
  let rating ← match e.rating with
    | some s => Except.ok s
    | none => Except.error (PyCause.keyError "rating")
  let just ← match e.justification with
    | some s => Except.ok s
    | none => Except.error (PyCause.keyError "justification")
  let conf ← match e.confidence with
    | some q => Except.ok q
    | none => Except.error (PyCause.keyError "confidence")
  Except.ok ⟨dom, rating, just, conf, e.key_evidence⟩

/-- Parse data["domains"] left to right for GRADE. -/
def parseGRADEEntries : List RawGRADEEntry → Except PyCause (List GRADEDomainAssessment)
  | [] => Except.ok []
  | e :: es => do
      let d ← parseGRADEEntry e
      let ds ← parseGRADEEntries es
      Except.ok (d :: ds)

/-- The three except handlers of GRADE assess_study (lines 177-191). -/
def wrapGRADE : PyCause → AssessErr
  | .keyError k =>
      .assessmentError ("Failed to parse GRADE assessment: missing key " ++ k)
        (some (.keyError k))
  | .valueError m =>
      .assessmentError ("Invalid GRADE assessment value: " ++ m)
        (some (.valueError m))
  | .otherExc m =>
      .assessmentError ("GRADE assessment failed: " ++ m)
        (some (.otherExc m))

/-- Body of the GRADE try block once json_data is in hand.  The overall
certainty is the parsed final_grade from the response; the engine computes
only the downgrade bookkeeping, and the starting level stored on the record
is itself re-parsed from the response (line 166), in the evaluation order of
the Python construction. -/
def gradeTryBody (data : RawGRADEResponse) :
    Except PyCause GRADEAssessment :=
  match data.domains with
  | none => .error (.keyError "domains")
  | some entries =>
    match parseGRADEEntries entries with
    | .error cause => .error cause
    | .ok domain_assessments =>
      match data.final_grade with
      | none => .error (.keyError "final_grade")
      | some fgRaw =>
        match GRADELevel.parse fgRaw with
        | none => .error (.valueError (fgRaw ++ " is not a valid GRADELevel"))
        | some overall_certainty =>
          match data.starting_level with
          | none => .error (.keyError "starting_level")
          | some slRaw =>
            match GRADELevel.parse slRaw with
            | none => .error (.valueError (slRaw ++ " is not a valid GRADELevel"))
            | some starting_level =>
              match data.summary with
              | none => .error (.keyError "summary")
              | some summary =>
                match data.overall_confidence with
                | none => .error (.keyError "overall_confidence")
                | some overall_confidence =>
                  .ok ⟨overall_certainty, starting_level, domain_assessments,
                    (gradeDowngrades domain_assessments).2,
                    (gradeDowngrades domain_assessments).1,
                    data.upgrades.getD [], summary, overall_confidence⟩

/-- GRADEAssessor.assess_study: null checks before everything (bare
ValueError), then the try block: the starting-level lookup runs first
(before the upstream call; its ValueError is caught by the except ValueError
handler and wrapped), then the upstream call and the response processing. -/
def gradeAssess (paper : Arg Paper) (characteristics : Arg Characteristics)
    (llm : LLMOutcome RawGRADEResponse) : Except AssessErr GRADEAssessment :=
  match paper with
  | .truthy _ =>
    match characteristics with
    | .truthy c =>
      match determineStartingLevel c.study_design with
      | .error m => .error (wrapGRADE (.valueError m))
      | .ok _ =>
        match llm with
        | .raises m => .error (wrapGRADE (.otherExc m))
        | .returns none => .error (wrapGRADE (.keyError "json_data"))
        | .returns (some data) =>
          match gradeTryBody data with
          | .error cause => .error (wrapGRADE cause)
          | .ok a => .ok a
    | _ => .error (.valueError "characteristics cannot be None")
  | _ => .error (.valueError "paper cannot be None")

/- ===== ROBINS-I assess_study (robins_i_assessor.py 64-227) ===== -/

/-- One entry of data["domains"] in a ROBINS-I response. -/
structure RawRobinsEntry where
  domain : Option String
  level : Option String
  justification : Option String
  confidence : Option ℚ
  key_evidence : List String
  signaling_questions : List String
deriving DecidableEq, Repr

/-- The json_data dict of a ROBINS-I response; target_trial is read with
.get and a "" default. -/
structure RawRobinsResponse where
  target_trial : Option String
  domains : Option (List RawRobinsEntry)
  overall_bias : Option String
  summary : Option String
  overall_confidence : Option ℚ
deriving DecidableEq, Repr

/-- ROBINSIAssessment record. -/
structure ROBINSIAssessment where
  paper_id : String
  study_design : DesignInput
  target_trial_description : String
  domain_assessments : List ROBINSIDomainAssessment
  overall_bias : ROBINSILevel
  summary : String
  overall_confidence : ℚ
deriving DecidableEq, Repr

/-- The designs where ROBINS-I is applicable (APPLICABLE_DESIGNS, lines
48-52). -/
def robinsApplicableDesigns : List DesignInput :=
  [.known .COHORT, .known .CASE_CONTROL, .known .CASE_SERIES]

/-- The synthesized default target-trial description (lines 163-166), built
from the characteristics fields after their "not specified" substitution
(lines 132-135). -/
def synthTargetTrial (c : Characteristics) : String :=
  "Hypothetical RCT comparing " ++ pyOr c.intervention_exposure "not specified" ++
  " vs " ++ pyOr c.comparator "not specified" ++
  " in " ++ pyOr c.population "not specified" ++
  " measuring " ++ pyOr c.primary_outcome "not specified"

/-- Parse one ROBINS-I domain entry in Python evaluation order. -/
def parseRobinsEntry (e : RawRobinsEntry) : Except PyCause ROBINSIDomainAssessment := do
  let domRaw ← match e.domain with
    | some s => Except.ok s
    | none => Except.error (PyCause.keyError "domain")
  let dom ← match parseROBINSIDomain domRaw with
    | some d => Except.ok d
    | none => Except.error (PyCause.valueError (domRaw ++ " is not a valid ROBINSIDomain"))
  let lvlRaw ← match e.level with
    | some s => Except.ok s
    | none => Except.error (PyCause.keyError "level")
  let lvl ← match ROBINSILevel.parse lvlRaw with
    | some l => Except.ok l
    | none => Except.error (PyCause.valueError (lvlRaw ++ " is not a valid ROBINSILevel"))
  let just ← match e.justification with
    | some s => Except.ok s
    | none => Except.error (PyCause.keyError "justification")
  let conf ← match e.confidence with
    | some q => Except.ok q
    | none => Except.error (PyCause.keyError "confidence")
  Except.ok ⟨dom, lvl, just, conf, e.key_evidence, e.signaling_questions⟩

/-- Parse data["domains"] left to right for ROBINS-I. -/
def parseRobinsEntries : List RawRobinsEntry → Except PyCause (List ROBINSIDomainAssessment)
  | [] => Except.ok []
  | e :: es => do
      let d ← parseRobinsEntry e
      let ds ← parseRobinsEntries es
      Except.ok (d :: ds)

/-- The three except handlers of ROBINS-I assess_study (lines 213-227). -/
def wrapRobins : PyCause → AssessErr
  | .keyError k =>
      .assessmentError ("Failed to parse ROBINS-I assessment: missing key " ++ k)
        (some (.keyError k))
  | .valueError m =>
      .assessmentError ("Invalid ROBINS-I assessment value: " ++ m)
        (some (.valueError m))
  | .otherExc m =>
      .assessmentError ("ROBINS-I assessment failed: " ++ m)
        (some (.otherExc m))

/-- The target-trial description carried by the returned assessment (lines
159-166): the upstream string when it is present and plausibly long, the
synthesized default otherwise. -/
def robinsTargetTrial (c : Characteristics) (data : RawRobinsResponse) : String :=
  let target_trial := data.target_trial.getD ""
  if target_trial.isEmpty || target_trial.length < 20 then
    synthTargetTrial c
  else
    target_trial

/-- Body of the ROBINS-I try block once json_data is in hand (lines
159-211): target-trial default, domain parsing, overall-bias parsing, the
computed-overall override, and the record construction. -/
def robinsTryBody (p : Paper) (c : Characteristics) (data : RawRobinsResponse) :
    Except PyCause ROBINSIAssessment :=
  match data.domains with
  | none => .error (.keyError "domains")
  | some entries =>
    match parseRobinsEntries entries with
    | .error cause => .error cause
    | .ok domain_assessments =>
      match data.overall_bias with
      | none => .error (.keyError "overall_bias")
      | some biasRaw =>
        match ROBINSILevel.parse biasRaw with
        | none => .error (.valueError (biasRaw ++ " is not a valid ROBINSILevel"))
        | some overall_bias =>
          match data.summary with
          | none => .error (.keyError "summary")
          | some summary =>
            match data.overall_confidence with
            | none => .error (.keyError "overall_confidence")
            | some overall_confidence =>
              .ok ⟨p.paper_id, c.study_design, robinsTargetTrial c data,
                domain_assessments,
                (if applyRobinsIAlgorithm domain_assessments ≠ overall_bias then
                    applyRobinsIAlgorithm domain_assessments
                  else overall_bias),
                summary, overall_confidence⟩

/-- ROBINSIAssessor.assess_study: null checks (bare ValueError, before all
other work), the applicability pre-condition (AssessmentError without a
cause, before the upstream call), then the try block whose failures are
wrapped by `wrapRobins`.  The case-series informational note is a log line
with no effect on control flow and is not modelled. -/
def robinsAssess (paper : Arg Paper) (characteristics : Arg Characteristics)
    (llm : LLMOutcome RawRobinsResponse) : Except AssessErr ROBINSIAssessment :=
  match paper with
  | .truthy p =>
    match characteristics with
    | .truthy c =>
      if c.study_design ∉ robinsApplicableDesigns then
        .error (.assessmentError
          ("ROBINS-I is only applicable to non-randomized intervention studies " ++
            "(cohort, case-control, case series with comparisons). Study design: " ++
            c.study_design.pyStr ++ ". For RCTs, use Cochrane RoB 2.0.") none)
      else
        match llm with
        | .raises m => .error (wrapRobins (.otherExc m))
        | .returns none => .error (wrapRobins (.keyError "json_data"))
        | .returns (some data) =>
          match robinsTryBody p c data with
          | .error cause => .error (wrapRobins cause)
          | .ok a => .ok a
    | _ => .error (.valueError "characteristics cannot be None")
  | _ => .error (.valueError "paper cannot be None")

/- ===== Spec-side formalisation helpers ===== -/

/-- Formalisation of the spec wording for the Cochrane critical-domain rule:
both critical domains appear in the set with judgment some_concerns or
high. -/
def bothCriticalFlagged (ds : List RoBDomainAssessment) : Prop :=
  ∀ n ∈ criticalDomainNames, ∃ d ∈ ds, d.domain = n ∧
    (d.judgment = RoBJudgment.some_concerns ∨ d.judgment = RoBJudgment.high)

/-- String containment: t occurs as a contiguous substring of s. -/
def containsStr (s t : String) : Prop :=
  ∃ pre post, s = pre ++ t ++ post

/-- Concrete domain-judgment set used to instantiate the C2 theorem. -/
def c2ExampleSet : List RoBDomainAssessment :=
  [⟨"randomization", RoBJudgment.some_concerns, "", 1, []⟩,
   ⟨"missing_outcome_data", RoBJudgment.low, "", 1, []⟩]

/-- Concrete paper fixture for the instantiated theorems. -/
def samplePaper : Paper := ⟨"p1", some "T", [("methods", "m"), ("results", "r")]⟩

/-- Concrete RCT characteristics fixture. -/
def rctChars : Characteristics := ⟨.known .RCT, none, none, none, none⟩

/-- GRADE response domain entry used by the C1 counterexample. -/
def c1GradeEntry : RawGRADEEntry :=
  ⟨some "risk_of_bias", some "very_serious", some "j", some 1, []⟩

/-- GRADE responses differing only in the upstream final grade. -/
def c1GradeResp (fg : String) : RawGRADEResponse :=
  ⟨some "high", some [c1GradeEntry], some fg, none, some "s", some 1⟩

/-- Minimal well-formed Cochrane response (no domains, overall low). -/
def emptyCochResp : RawRoBResponse := ⟨some [], some "low", some "s", some 1⟩

/-- Cochrane response whose summary key is missing. -/
def c8MissingSummaryResp : RawRoBResponse := ⟨some [], some "low", none, some 1⟩

/-- Cohort characteristics matching the C9 scenario. -/
def c9Chars : Characteristics :=
  ⟨.known .COHORT, some "Adults 40-65", some "Daily exercise",
   some "No structured exercise", some "Cardiovascular events"⟩

/-- ROBINS-I response supplying an empty target-trial description. -/
def c9Resp : RawRobinsResponse := ⟨some "", some [], some "low", some "s", some 1⟩

/-- The assessment returned for the C9 scenario run. -/
def c9Expected : ROBINSIAssessment :=
  ⟨"p1", .known .COHORT,
   "Hypothetical RCT comparing Daily exercise vs No structured exercise in " ++
     "Adults 40-65 measuring Cardiovascular events",
   [], .low, "s", 1⟩

/- ===== Theorems ===== -/

section Theorems

/-- Helper: the Python dict lookup finds a concern at name n exactly when an
element with that domain and a some_concerns/high judgment is in the list
(the backward direction needs the domain names to be duplicate-free). -/
lemma isConcern_get_iff (ds : List RoBDomainAssessment) (n : String)
    (hnodup : (ds.map (fun d => d.domain)).Nodup) :
    isConcern (domainMapGet ds n) = true ↔
      ∃ d ∈ ds, d.domain = n ∧
        (d.judgment = RoBJudgment.some_concerns ∨ d.judgment = RoBJudgment.high) := by
  constructor
  · intro h
    unfold domainMapGet at h
    cases hf : ds.reverse.find? (fun d => d.domain == n) with
    | none => rw [hf] at h; simp [isConcern] at h
    | some d =>
      rw [hf] at h
      have hd : d ∈ ds := List.mem_reverse.mp (List.mem_of_find?_eq_some hf)
      have hdom : d.domain = n := by simpa using List.find?_some hf
      refine ⟨d, hd, hdom, ?_⟩
      have h2 : (d.judgment == RoBJudgment.some_concerns ||
          d.judgment == RoBJudgment.high) = true := by
        simpa [isConcern] using h
      simpa using h2
  · rintro ⟨d, hd, hdom, hj⟩
    cases hf : ds.reverse.find? (fun d => d.domain == n) with
    | none =>
      exfalso
      have := List.find?_eq_none.mp hf d (List.mem_reverse.mpr hd)
      simp [hdom] at this
    | some d' =>
      have hd' : d' ∈ ds := List.mem_reverse.mp (List.mem_of_find?_eq_some hf)
      have hdom' : d'.domain = n := by simpa using List.find?_some hf
      have heq : d' = d :=
        List.inj_on_of_nodup_map hnodup hd' hd (by rw [hdom', hdom])
      unfold domainMapGet
      rw [hf, heq]
      rcases hj with h | h <;> simp [isConcern, h]

/-- Helper: computing the critical-concern count over the two critical
domains. -/
lemma two_le_criticalConcerns_iff (ds : List RoBDomainAssessment) :
    2 ≤ criticalConcerns ds ↔
      (isConcern (domainMapGet ds "randomization") = true ∧
       isConcern (domainMapGet ds "deviations_from_intended_interventions") = true) := by
  unfold criticalConcerns criticalDomainNames
  by_cases h1 : isConcern (domainMapGet ds "randomization") <;>
    by_cases h2 : isConcern (domainMapGet ds "deviations_from_intended_interventions") <;>
      simp [List.filter, h1, h2]

/-- Helper: under duplicate-free domain names the code's critical-concern
count reaching 2 coincides with the spec-side critical-pair predicate. -/
lemma bothCriticalFlagged_iff_two_le (ds : List RoBDomainAssessment)
    (hnodup : (ds.map (fun d => d.domain)).Nodup) :
    bothCriticalFlagged ds ↔ 2 ≤ criticalConcerns ds := by
  rw [two_le_criticalConcerns_iff,
    isConcern_get_iff ds _ hnodup, isConcern_get_iff ds _ hnodup]
  constructor
  · intro h
    exact ⟨h _ (by simp [criticalDomainNames]), h _ (by simp [criticalDomainNames])⟩
  · rintro ⟨h1, h2⟩ n hn
    simp only [criticalDomainNames, List.mem_cons, List.mem_singleton,
      List.not_mem_nil, or_false] at hn
    rcases hn with rfl | rfl
    · exact h1
    · exact h2

/-- C6: for every Cochrane domain-judgment set containing at least one
domain judged high, the computed overall risk is high, regardless of the
judgments of all other domains. -/
theorem c6_any_high_gives_overall_high (ds : List RoBDomainAssessment)
    (h : RoBJudgment.high ∈ ds.map (fun d => d.judgment)) :
    applyRobAlgorithm ds = RoBJudgment.high := by
  simp [applyRobAlgorithm, h]

/-- Witness for C6 at a concrete domain set. -/
theorem c6_any_high_gives_overall_high_witness :
    RoBJudgment.high ∈
        ([⟨"randomization", RoBJudgment.high, "", 1, []⟩,
          ⟨"missing_outcome_data", RoBJudgment.low, "", 1, []⟩] :
          List RoBDomainAssessment).map (fun d => d.judgment) ∧
    applyRobAlgorithm
        [⟨"randomization", RoBJudgment.high, "", 1, []⟩,
         ⟨"missing_outcome_data", RoBJudgment.low, "", 1, []⟩] = RoBJudgment.high :=
  ⟨by decide, c6_any_high_gives_overall_high _ (by decide)⟩

/-- C3: randomization and deviations_from_intended_interventions both judged
some_concerns with every other domain low computes overall high: the
critical-domain escalation fires although only 2 domains carry concerns. -/
theorem c3_critical_pair_escalates_to_high :
    applyRobAlgorithm
      [⟨"randomization", RoBJudgment.some_concerns, "", 1, []⟩,
       ⟨"deviations_from_intended_interventions", RoBJudgment.some_concerns, "", 1, []⟩,
       ⟨"missing_outcome_data", RoBJudgment.low, "", 1, []⟩,
       ⟨"measurement_of_outcome", RoBJudgment.low, "", 1, []⟩,
       ⟨"selection_of_reported_result", RoBJudgment.low, "", 1, []⟩] =
      RoBJudgment.high := by
  rfl

/-- C2: on every domain-judgment set with pairwise distinct domains and no
high judgment, the overall risk is high iff both critical domains carry
some_concerns/high or at least 3 domains carry some_concerns; otherwise it
is some_concerns when at least one domain does, and low when none does. -/
theorem c2_no_high_overall_characterisation (ds : List RoBDomainAssessment)
    (hnodup : (ds.map (fun d => d.domain)).Nodup)
    (hnh : RoBJudgment.high ∉ ds.map (fun d => d.judgment)) :
    (applyRobAlgorithm ds = RoBJudgment.high ↔
      (bothCriticalFlagged ds ∨
        3 ≤ (ds.map (fun d => d.judgment)).count RoBJudgment.some_concerns)) ∧
    (¬(bothCriticalFlagged ds ∨
        3 ≤ (ds.map (fun d => d.judgment)).count RoBJudgment.some_concerns) →
      ((RoBJudgment.some_concerns ∈ ds.map (fun d => d.judgment) →
          applyRobAlgorithm ds = RoBJudgment.some_concerns) ∧
       (RoBJudgment.some_concerns ∉ ds.map (fun d => d.judgment) →
          applyRobAlgorithm ds = RoBJudgment.low))) := by
  have hbridge := bothCriticalFlagged_iff_two_le ds hnodup
  simp only [applyRobAlgorithm]
  rw [if_neg hnh]
  by_cases hcc : 2 ≤ criticalConcerns ds
  · rw [if_pos hcc]
    refine ⟨⟨fun _ => Or.inl (hbridge.mpr hcc), fun _ => rfl⟩, fun h => ?_⟩
    exact absurd (Or.inl (hbridge.mpr hcc)) h
  · rw [if_neg hcc]
    by_cases hsc : RoBJudgment.some_concerns ∈ ds.map (fun d => d.judgment)
    · rw [if_pos hsc]
      by_cases hcount : 3 ≤ (ds.map (fun d => d.judgment)).count RoBJudgment.some_concerns
      · rw [if_pos hcount]
        exact ⟨⟨fun _ => Or.inr hcount, fun _ => rfl⟩,
          fun h => absurd (Or.inr hcount) h⟩
      · rw [if_neg hcount]
        refine ⟨⟨fun h => absurd h (by simp), fun h => ?_⟩,
          fun _ => ⟨fun _ => rfl, fun h' => absurd hsc h'⟩⟩
        rcases h with hb | h3
        · exact absurd (hbridge.mp hb) hcc
        · exact absurd h3 hcount
    · rw [if_neg hsc]
      refine ⟨⟨fun h => absurd h (by simp), fun h => ?_⟩,
        fun _ => ⟨fun h => absurd h hsc, fun _ => rfl⟩⟩
      rcases h with hb | h3
      · obtain ⟨d, hd, _, hj⟩ := hb "randomization" (by simp [criticalDomainNames])
        have hmem : d.judgment ∈ ds.map (fun d => d.judgment) :=
          List.mem_map.mpr ⟨d, hd, rfl⟩
        rcases hj with h | h
        · exact absurd (h ▸ hmem) hsc
        · exact absurd (h ▸ hmem) hnh
      · have : 0 < (ds.map (fun d => d.judgment)).count RoBJudgment.some_concerns := by
          omega
        exact absurd (List.count_pos_iff.mp this) hsc

/-- Witness for C2 at a concrete duplicate-free set with one some_concerns
domain. -/
theorem c2_no_high_overall_characterisation_witness :
    ((c2ExampleSet.map (fun d => d.domain)).Nodup ∧
      RoBJudgment.high ∉ c2ExampleSet.map (fun d => d.judgment)) ∧
    ((applyRobAlgorithm c2ExampleSet = RoBJudgment.high ↔
      (bothCriticalFlagged c2ExampleSet ∨
        3 ≤ (c2ExampleSet.map (fun d => d.judgment)).count RoBJudgment.some_concerns)) ∧
    (¬(bothCriticalFlagged c2ExampleSet ∨
        3 ≤ (c2ExampleSet.map (fun d => d.judgment)).count RoBJudgment.some_concerns) →
      ((RoBJudgment.some_concerns ∈ c2ExampleSet.map (fun d => d.judgment) →
          applyRobAlgorithm c2ExampleSet = RoBJudgment.some_concerns) ∧
       (RoBJudgment.some_concerns ∉ c2ExampleSet.map (fun d => d.judgment) →
          applyRobAlgorithm c2ExampleSet = RoBJudgment.low)))) :=
  ⟨⟨by decide, by decide⟩,
    c2_no_high_overall_characterisation c2ExampleSet (by decide) (by decide)⟩

/-- Helper: every ROBINS-I level has rank at most 4. -/
lemma rank_le_four (x : ROBINSILevel) : x.rank ≤ 4 := by
  cases x <;> decide

/-- Helper: a critical domain forces the critical overall. -/
lemma robins_eq_of_critical {ds : List ROBINSIDomainAssessment}
    (h : ROBINSILevel.critical ∈ ds.map (fun d => d.level)) :
    applyRobinsIAlgorithm ds = ROBINSILevel.critical := by
  simp [applyRobinsIAlgorithm, h]

/-- Helper: serious is the overall when serious is present and critical is
not. -/
lemma robins_eq_of_serious {ds : List ROBINSIDomainAssessment}
    (hc : ROBINSILevel.critical ∉ ds.map (fun d => d.level))
    (hs : ROBINSILevel.serious ∈ ds.map (fun d => d.level)) :
    applyRobinsIAlgorithm ds = ROBINSILevel.serious := by
  simp [applyRobinsIAlgorithm, hc, hs]

/-- Helper: moderate is the overall when moderate is present and nothing
worse is. -/
lemma robins_eq_of_moderate {ds : List ROBINSIDomainAssessment}
    (hc : ROBINSILevel.critical ∉ ds.map (fun d => d.level))
    (hs : ROBINSILevel.serious ∉ ds.map (fun d => d.level))
    (hm : ROBINSILevel.moderate ∈ ds.map (fun d => d.level)) :
    applyRobinsIAlgorithm ds = ROBINSILevel.moderate := by
  simp [applyRobinsIAlgorithm, hc, hs, hm]

/-- Helper: without critical domains the overall rank stays at most 3. -/
lemma robins_rank_le_three {ds : List ROBINSIDomainAssessment}
    (hc : ROBINSILevel.critical ∉ ds.map (fun d => d.level)) :
    (applyRobinsIAlgorithm ds).rank ≤ 3 := by
  simp only [applyRobinsIAlgorithm]
  rw [if_neg hc]
  split_ifs <;> decide

/-- Helper: without critical or serious domains the overall rank stays at
most 2. -/
lemma robins_rank_le_two {ds : List ROBINSIDomainAssessment}
    (hc : ROBINSILevel.critical ∉ ds.map (fun d => d.level))
    (hs : ROBINSILevel.serious ∉ ds.map (fun d => d.level)) :
    (applyRobinsIAlgorithm ds).rank ≤ 2 := by
  simp only [applyRobinsIAlgorithm]
  rw [if_neg hc, if_neg hs]
  split_ifs <;> decide

/-- Helper: without critical, serious or moderate domains the overall rank
stays at most 1. -/
lemma robins_rank_le_one {ds : List ROBINSIDomainAssessment}
    (hc : ROBINSILevel.critical ∉ ds.map (fun d => d.level))
    (hs : ROBINSILevel.serious ∉ ds.map (fun d => d.level))
    (hm : ROBINSILevel.moderate ∉ ds.map (fun d => d.level)) :
    (applyRobinsIAlgorithm ds).rank ≤ 1 := by
  simp only [applyRobinsIAlgorithm]
  rw [if_neg hc, if_neg hs, if_neg hm]
  split_ifs <;> decide

/-- Helper: the left-identity of the worst-wins reduction. -/
lemma maxLevel_low_left (x : ROBINSILevel) : maxLevel ROBINSILevel.low x = x := by
  cases x <;> decide

/-- Helper: only the first branch of the chain returns critical. -/
lemma robins_critical_of_eq {ds : List ROBINSIDomainAssessment}
    (h : applyRobinsIAlgorithm ds = ROBINSILevel.critical) :
    ROBINSILevel.critical ∈ ds.map (fun d => d.level) := by
  by_contra hc
  simp only [applyRobinsIAlgorithm] at h
  rw [if_neg hc] at h
  split_ifs at h

/-- Helper: only the second branch of the chain returns serious. -/
lemma robins_serious_of_eq {ds : List ROBINSIDomainAssessment}
    (h : applyRobinsIAlgorithm ds = ROBINSILevel.serious) :
    ROBINSILevel.serious ∈ ds.map (fun d => d.level) := by
  by_contra hs
  simp only [applyRobinsIAlgorithm] at h
  rw [if_neg hs] at h
  split_ifs at h

/-- Helper: only the third branch of the chain returns moderate. -/
lemma robins_moderate_of_eq {ds : List ROBINSIDomainAssessment}
    (h : applyRobinsIAlgorithm ds = ROBINSILevel.moderate) :
    ROBINSILevel.moderate ∈ ds.map (fun d => d.level) := by
  by_contra hm
  simp only [applyRobinsIAlgorithm] at h
  rw [if_neg hm] at h
  split_ifs at h

/-- Helper: the worst-domain chain peels one assessment at a time as a
maxLevel fold step. -/
lemma robins_cons (d : ROBINSIDomainAssessment) (ds : List ROBINSIDomainAssessment) :
    applyRobinsIAlgorithm (d :: ds) = maxLevel d.level (applyRobinsIAlgorithm ds) := by
  obtain ⟨dom, lvl, j, cf, ke, sq⟩ := d
  cases lvl with
  | critical =>
    rw [robins_eq_of_critical (by simp)]
    cases hv : applyRobinsIAlgorithm ds <;> rfl
  | serious =>
    by_cases hc : ROBINSILevel.critical ∈ ds.map (fun d => d.level)
    · rw [robins_eq_of_critical (by simp [hc]), robins_eq_of_critical hc]; rfl
    · rw [robins_eq_of_serious (by simp [hc]) (by simp)]
      cases hv : applyRobinsIAlgorithm ds with
      | critical => exact absurd (robins_critical_of_eq hv) hc
      | low => rfl
      | moderate => rfl
      | serious => rfl
      | no_information => rfl
  | moderate =>
    by_cases hc : ROBINSILevel.critical ∈ ds.map (fun d => d.level)
    · rw [robins_eq_of_critical (by simp [hc]), robins_eq_of_critical hc]; rfl
    · by_cases hs : ROBINSILevel.serious ∈ ds.map (fun d => d.level)
      · rw [robins_eq_of_serious (by simp [hc]) (by simp [hs]),
          robins_eq_of_serious hc hs]
        rfl
      · rw [robins_eq_of_moderate (by simp [hc]) (by simp [hs]) (by simp)]
        cases hv : applyRobinsIAlgorithm ds with
        | critical => exact absurd (robins_critical_of_eq hv) hc
        | serious => exact absurd (robins_serious_of_eq hv) hs
        | low => rfl
        | moderate => rfl
        | no_information => rfl
  | no_information =>
    by_cases hc : ROBINSILevel.critical ∈ ds.map (fun d => d.level)
    · rw [robins_eq_of_critical (by simp [hc]), robins_eq_of_critical hc]; rfl
    · by_cases hs : ROBINSILevel.serious ∈ ds.map (fun d => d.level)
      · rw [robins_eq_of_serious (by simp [hc]) (by simp [hs]),
          robins_eq_of_serious hc hs]
        rfl
      · by_cases hm : ROBINSILevel.moderate ∈ ds.map (fun d => d.level)
        · rw [robins_eq_of_moderate (by simp [hc]) (by simp [hs]) (by simp [hm]),
            robins_eq_of_moderate hc hs hm]
          rfl
        · have h1 : applyRobinsIAlgorithm
              (⟨dom, ROBINSILevel.no_information, j, cf, ke, sq⟩ :: ds) =
              ROBINSILevel.no_information := by
            simp [applyRobinsIAlgorithm, hc, hs, hm]
          rw [h1]
          cases hv : applyRobinsIAlgorithm ds with
          | critical => exact absurd (robins_critical_of_eq hv) hc
          | serious => exact absurd (robins_serious_of_eq hv) hs
          | moderate => exact absurd (robins_moderate_of_eq hv) hm
          | low => rfl
          | no_information => rfl
  | low =>
    have h1 : applyRobinsIAlgorithm
        (⟨dom, ROBINSILevel.low, j, cf, ke, sq⟩ :: ds) = applyRobinsIAlgorithm ds := by
      simp [applyRobinsIAlgorithm]
    rw [h1]
    cases hv : applyRobinsIAlgorithm ds <;> rfl

/-- C4: the ROBINS-I overall bias is the maximum of the domain levels under
the fixed total order critical > serious > moderate > no_information > low
(realised as a maxLevel fold with identity low), and permuting the domain
list never changes the result. -/
theorem c4_robins_overall_is_order_max :
    (∀ ds : List ROBINSIDomainAssessment,
      applyRobinsIAlgorithm ds =
        (ds.map (fun d => d.level)).foldr maxLevel ROBINSILevel.low) ∧
    (∀ ds1 ds2 : List ROBINSIDomainAssessment,
      (ds1.map (fun d => d.level)).Perm (ds2.map (fun d => d.level)) →
        applyRobinsIAlgorithm ds1 = applyRobinsIAlgorithm ds2) := by
  constructor
  · intro ds
    induction ds with
    | nil => rfl
    | cons d ds ih => rw [robins_cons, ih]; rfl
  · intro ds1 ds2 hp
    simp only [applyRobinsIAlgorithm, hp.mem_iff]

/-- Witness for C4 at a concrete permuted pair of domain lists. -/
theorem c4_robins_overall_is_order_max_witness :
    (([⟨"confounding", ROBINSILevel.serious, "", 1, [], []⟩,
       ⟨"missing_data", ROBINSILevel.low, "", 1, [], []⟩] :
        List ROBINSIDomainAssessment).map (fun d => d.level)).Perm
      (([⟨"missing_data", ROBINSILevel.low, "", 1, [], []⟩,
         ⟨"confounding", ROBINSILevel.serious, "", 1, [], []⟩] :
          List ROBINSIDomainAssessment).map (fun d => d.level)) ∧
    applyRobinsIAlgorithm
        [⟨"confounding", ROBINSILevel.serious, "", 1, [], []⟩,
         ⟨"missing_data", ROBINSILevel.low, "", 1, [], []⟩] =
      applyRobinsIAlgorithm
        [⟨"missing_data", ROBINSILevel.low, "", 1, [], []⟩,
         ⟨"confounding", ROBINSILevel.serious, "", 1, [], []⟩] :=
  ⟨by decide, c4_robins_overall_is_order_max.2 _ _ (by decide)⟩

/-- Helper: a successful Cochrane try block always carries the overall risk
computed by the algorithm from the very domain list it returns. -/
lemma cochraneTryBody_overall (data : RawRoBResponse) (a : CochraneRoBAssessment)
    (h : cochraneTryBody data = Except.ok a) :
    a.overall_risk = applyRobAlgorithm a.domain_assessments := by
  unfold cochraneTryBody at h
  repeat' split at h
  all_goals try exact Except.noConfusion h
  all_goals cases h
  · rfl
  · exact (not_ne_iff.mp (by assumption)).symm

/-- Helper: lifting the Cochrane overall invariant through assess_study. -/
lemma cochraneAssess_ok_overall (pp : Arg Paper) (cc : Arg Characteristics)
    (llm : LLMOutcome RawRoBResponse) (a : CochraneRoBAssessment)
    (h : cochraneAssess pp cc llm = Except.ok a) :
    a.overall_risk = applyRobAlgorithm a.domain_assessments := by
  unfold cochraneAssess at h
  repeat' split at h
  all_goals try exact Except.noConfusion h
  all_goals cases h
  all_goals exact cochraneTryBody_overall _ _ (by assumption)

/-- Helper: a successful ROBINS-I try block carries the computed overall
bias and the target-trial string of robinsTargetTrial. -/
lemma robinsTryBody_fields (p : Paper) (c : Characteristics)
    (data : RawRobinsResponse) (a : ROBINSIAssessment)
    (h : robinsTryBody p c data = Except.ok a) :
    a.overall_bias = applyRobinsIAlgorithm a.domain_assessments ∧
    a.target_trial_description = robinsTargetTrial c data := by
  unfold robinsTryBody at h
  repeat' split at h
  all_goals try exact Except.noConfusion h
  all_goals cases h
  · exact ⟨rfl, rfl⟩
  · exact ⟨(not_ne_iff.mp (by assumption)).symm, rfl⟩

/-- Helper: lifting the ROBINS-I overall invariant through assess_study. -/
lemma robinsAssess_ok_overall (pp : Arg Paper) (cc : Arg Characteristics)
    (llm : LLMOutcome RawRobinsResponse) (a : ROBINSIAssessment)
    (h : robinsAssess pp cc llm = Except.ok a) :
    a.overall_bias = applyRobinsIAlgorithm a.domain_assessments := by
  unfold robinsAssess at h
  repeat' split at h
  all_goals try exact Except.noConfusion h
  all_goals cases h
  all_goals exact (robinsTryBody_fields _ _ _ _ (by assumption)).1

/-- Helper: lifting the ROBINS-I target-trial computation through
assess_study. -/
lemma robinsAssess_ok_target (p : Paper) (c : Characteristics)
    (data : RawRobinsResponse) (a : ROBINSIAssessment)
    (h : robinsAssess (Arg.truthy p) (Arg.truthy c) (LLMOutcome.returns (some data)) =
      Except.ok a) :
    a.target_trial_description = robinsTargetTrial c data := by
  unfold robinsAssess at h
  repeat' split at h
  all_goals try exact Except.noConfusion h
  all_goals cases h
  all_goals try injections
  all_goals subst_vars
  all_goals exact (robinsTryBody_fields _ _ _ _ (by assumption)).2

/-- Helper: a successful GRADE try block returns as overall certainty the
parsed final_grade of the response. -/
lemma gradeTryBody_overall (data : RawGRADEResponse) (a : GRADEAssessment)
    (fg : String) (g : GRADELevel)
    (h : gradeTryBody data = Except.ok a)
    (hfg : data.final_grade = some fg) (hg : GRADELevel.parse fg = some g) :
    a.overall_certainty = g := by
  unfold gradeTryBody at h
  repeat' split at h
  all_goals try exact Except.noConfusion h
  all_goals cases h
  all_goals simp_all

/-- Helper: lifting the GRADE pass-through behaviour through assess_study. -/
lemma gradeAssess_ok_overall (pp : Arg Paper) (cc : Arg Characteristics)
    (data : RawGRADEResponse) (a : GRADEAssessment) (fg : String) (g : GRADELevel)
    (h : gradeAssess pp cc (LLMOutcome.returns (some data)) = Except.ok a)
    (hfg : data.final_grade = some fg) (hg : GRADELevel.parse fg = some g) :
    a.overall_certainty = g := by
  unfold gradeAssess at h
  repeat' split at h
  all_goals try exact Except.noConfusion h
  all_goals cases h
  all_goals try injections
  all_goals subst_vars
  all_goals exact gradeTryBody_overall _ _ _ _ (by assumption) hfg hg

/-- Helper: once the null checks and the RCT applicability check have
passed, every error escaping Cochrane assess_study is a wrapRoB wrapping of
an original cause. -/
lemma cochraneAssess_error_wrapped (p : Paper) (c : Characteristics)
    (llm : LLMOutcome RawRoBResponse) (e : AssessErr)
    (hd : c.study_design = DesignInput.known StudyDesign.RCT)
    (h : cochraneAssess (Arg.truthy p) (Arg.truthy c) llm = Except.error e) :
    ∃ cause, e = wrapRoB cause := by
  unfold cochraneAssess at h
  repeat' split at h
  all_goals try exact Except.noConfusion h
  all_goals try exact
    ((by assumption : ∀ a1 : Paper, Arg.truthy p = Arg.truthy a1 → False) p rfl).elim
  all_goals try exact
    ((by assumption : ∀ c1 : Characteristics, Arg.truthy c = Arg.truthy c1 → False) c rfl).elim
  all_goals try injections
  all_goals subst_vars
  all_goals try exact absurd hd (by assumption)
  all_goals exact ⟨_, rfl⟩

/-- C1 (counterexample): two GRADE runs on identical inputs except for the
upstream final_grade return assessments with the same DomainAssessment list
but different overall certainty (each the supplied value), so the GRADE
engine's overall verdict is not computed from its DomainAssessment list by
any deterministic algorithm, and a supplied value is used as-is. -/
theorem c1_grade_passthrough_counterexample :
    (gradeAssess (.truthy samplePaper) (.truthy rctChars)
        (.returns (some (c1GradeResp "high")))).map
        (fun a => (a.overall_certainty, a.domain_assessments)) =
      Except.ok (GRADELevel.high,
        [⟨GRADEDomain.risk_of_bias, "very_serious", "j", 1, []⟩]) ∧
    (gradeAssess (.truthy samplePaper) (.truthy rctChars)
        (.returns (some (c1GradeResp "low")))).map
        (fun a => (a.overall_certainty, a.domain_assessments)) =
      Except.ok (GRADELevel.low,
        [⟨GRADEDomain.risk_of_bias, "very_serious", "j", 1, []⟩]) ∧
    GRADELevel.high ≠ GRADELevel.low :=
  ⟨rfl, rfl, by decide⟩

/-- C1 (amended): the Cochrane and ROBINS-I engines always return the
overall verdict computed by their own aggregation algorithm from the
returned DomainAssessment list, overriding any differing upstream value;
the GRADE engine instead returns the parsed upstream final_grade as its
overall certainty without recomputation. -/
theorem c1_overall_verdict_policy :
    (∀ (pp : Arg Paper) (cc : Arg Characteristics)
        (llm : LLMOutcome RawRoBResponse) (a : CochraneRoBAssessment),
      cochraneAssess pp cc llm = Except.ok a →
      a.overall_risk = applyRobAlgorithm a.domain_assessments) ∧
    (∀ (pp : Arg Paper) (cc : Arg Characteristics)
        (llm : LLMOutcome RawRobinsResponse) (a : ROBINSIAssessment),
      robinsAssess pp cc llm = Except.ok a →
      a.overall_bias = applyRobinsIAlgorithm a.domain_assessments) ∧
    (∀ (pp : Arg Paper) (cc : Arg Characteristics) (data : RawGRADEResponse)
        (a : GRADEAssessment) (fg : String) (g : GRADELevel),
      gradeAssess pp cc (LLMOutcome.returns (some data)) = Except.ok a →
      data.final_grade = some fg → GRADELevel.parse fg = some g →
      a.overall_certainty = g) :=
  ⟨cochraneAssess_ok_overall, robinsAssess_ok_overall, gradeAssess_ok_overall⟩

/-- Witness for the C1 amended theorem at a concrete Cochrane run. -/
theorem c1_overall_verdict_policy_witness :
    cochraneAssess (.truthy samplePaper) (.truthy rctChars)
        (.returns (some emptyCochResp)) =
      Except.ok ⟨RoBJudgment.low, [], "s", 1⟩ ∧
    (⟨RoBJudgment.low, [], "s", 1⟩ : CochraneRoBAssessment).overall_risk =
      applyRobAlgorithm
        (⟨RoBJudgment.low, [], "s", 1⟩ : CochraneRoBAssessment).domain_assessments :=
  ⟨rfl, c1_overall_verdict_policy.1 (.truthy samplePaper) (.truthy rctChars)
    (.returns (some emptyCochResp)) ⟨RoBJudgment.low, [], "s", 1⟩ rfl⟩

/-- C5 (counterexample): for a design value outside the table, the error
escaping assess_study is the generic exception-class failure wrapping the
original ValueError (message prefix of the generic handler, cause present),
not an unwrapped distinct error kind. -/
theorem c5_unsupported_design_counterexample :
    gradeAssess (.truthy samplePaper)
        (.truthy ⟨.unknown "quasi_experimental", none, none, none, none⟩)
        (.returns none) =
      Except.error (.assessmentError
        ("Invalid GRADE assessment value: " ++ unsupportedDesignMsg "quasi_experimental")
        (some (.valueError (unsupportedDesignMsg "quasi_experimental")))) :=
  rfl

/-- C5 (amended): _determine_starting_level returns the documented fixed
mapping on every design of the table and raises its distinct ValueError on
every design value outside it (no silent default); but when reached through
assess_study the ValueError is caught by the except handler and re-raised
wrapped inside the generic assessment-failure error, so assess callers
observe the wrapped generic failure. -/
theorem c5_starting_level_table :
    (determineStartingLevel (.known .RCT) = Except.ok GRADELevel.high ∧
      determineStartingLevel (.known .COHORT) = Except.ok GRADELevel.low ∧
      determineStartingLevel (.known .CASE_CONTROL) = Except.ok GRADELevel.low ∧
      determineStartingLevel (.known .CROSS_SECTIONAL) = Except.ok GRADELevel.very_low ∧
      determineStartingLevel (.known .CASE_SERIES) = Except.ok GRADELevel.very_low ∧
      determineStartingLevel (.known .SYSTEMATIC_REVIEW) = Except.ok GRADELevel.low ∧
      determineStartingLevel (.known .META_ANALYSIS) = Except.ok GRADELevel.high ∧
      determineStartingLevel (.known .OTHER) = Except.ok GRADELevel.very_low) ∧
    (∀ s : String,
      determineStartingLevel (.unknown s) = Except.error (unsupportedDesignMsg s)) ∧
    (∀ (s pid : String) (t : Option String) (secs : List (String × String))
        (pop i cmp o : Option String) (llm : LLMOutcome RawGRADEResponse),
      gradeAssess (.truthy ⟨pid, t, secs⟩) (.truthy ⟨.unknown s, pop, i, cmp, o⟩) llm =
        Except.error (wrapGRADE (.valueError (unsupportedDesignMsg s)))) :=
  ⟨⟨rfl, rfl, rfl, rfl, rfl, rfl, rfl, rfl⟩, fun _ => rfl,
    fun _ _ _ _ _ _ _ _ _ => rfl⟩

/-- C7: the Cochrane engine rejects every design other than the randomized
trial, and the ROBINS-I engine rejects every design outside cohort,
case-control and case-series, both with the applicability error raised
without a cause and independently of the upstream outcome (the universally
quantified llm never influences the result, so the check precedes the
upstream call). -/
theorem c7_applicability_gating :
    (∀ (p : Paper) (d : DesignInput) (pop i cmp o : Option String)
        (llm : LLMOutcome RawRoBResponse),
      d ≠ DesignInput.known StudyDesign.RCT →
      cochraneAssess (.truthy p) (.truthy ⟨d, pop, i, cmp, o⟩) llm =
        Except.error (.assessmentError
          ("Cochrane RoB 2.0 is only applicable to RCTs. Study design: " ++ d.pyStr)
          none)) ∧
    (∀ (p : Paper) (d : DesignInput) (pop i cmp o : Option String)
        (llm : LLMOutcome RawRobinsResponse),
      d ∉ robinsApplicableDesigns →
      robinsAssess (.truthy p) (.truthy ⟨d, pop, i, cmp, o⟩) llm =
        Except.error (.assessmentError
          ("ROBINS-I is only applicable to non-randomized intervention studies " ++
            "(cohort, case-control, case series with comparisons). Study design: " ++
            d.pyStr ++ ". For RCTs, use Cochrane RoB 2.0.") none)) := by
  constructor
  · intro p d pop i cmp o llm hd
    simp [cochraneAssess, hd]
  · intro p d pop i cmp o llm hd
    simp [robinsAssess, hd]

/-- Witness for C7 at a cohort design for Cochrane and an RCT design for
ROBINS-I. -/
theorem c7_applicability_gating_witness :
    (DesignInput.known StudyDesign.COHORT ≠ DesignInput.known StudyDesign.RCT ∧
      cochraneAssess (.truthy samplePaper)
          (.truthy ⟨.known .COHORT, none, none, none, none⟩) (.returns none) =
        Except.error (.assessmentError
          ("Cochrane RoB 2.0 is only applicable to RCTs. Study design: " ++
            (DesignInput.known StudyDesign.COHORT).pyStr) none)) ∧
    (DesignInput.known StudyDesign.RCT ∉ robinsApplicableDesigns ∧
      robinsAssess (.truthy samplePaper)
          (.truthy ⟨.known .RCT, none, none, none, none⟩) (.returns none) =
        Except.error (.assessmentError
          ("ROBINS-I is only applicable to non-randomized intervention studies " ++
            "(cohort, case-control, case series with comparisons). Study design: " ++
            (DesignInput.known StudyDesign.RCT).pyStr ++
            ". For RCTs, use Cochrane RoB 2.0.") none)) :=
  ⟨⟨by decide, c7_applicability_gating.1 _ _ _ _ _ _ _ (by decide)⟩,
    ⟨by decide, c7_applicability_gating.2 _ _ _ _ _ _ _ (by decide)⟩⟩

/-- C8: with truthy inputs and the applicable design, every error escaping
Cochrane assess_study is the uniform exception-class failure wrapping the
original cause (wrapRoB); the null checks instead raise the bare ValueError
with a fixed message, before every other check and not wrapped in anything,
for every falsy argument. -/
theorem c8_error_uniformity :
    (∀ (p : Paper) (c : Characteristics) (llm : LLMOutcome RawRoBResponse)
        (e : AssessErr),
      c.study_design = DesignInput.known StudyDesign.RCT →
      cochraneAssess (.truthy p) (.truthy c) llm = Except.error e →
      ∃ cause, e = wrapRoB cause) ∧
    (∀ (pp : Arg Paper) (cc : Arg Characteristics) (llm : LLMOutcome RawRoBResponse),
      pp.isTruthy = false →
      cochraneAssess pp cc llm = Except.error (.valueError "paper cannot be None")) ∧
    (∀ (p : Paper) (cc : Arg Characteristics) (llm : LLMOutcome RawRoBResponse),
      cc.isTruthy = false →
      cochraneAssess (.truthy p) cc llm =
        Except.error (.valueError "characteristics cannot be None")) := by
  refine ⟨fun p c llm e hd h => cochraneAssess_error_wrapped p c llm e hd h,
    fun pp cc llm hp => ?_, fun p cc llm hc => ?_⟩
  · cases pp with
    | pyNone => rfl
    | falsy _ => rfl
    | truthy _ => simp [Arg.isTruthy] at hp
  · cases cc with
    | pyNone => rfl
    | falsy _ => rfl
    | truthy _ => simp [Arg.isTruthy] at hc

/-- Witness for C8 at a run whose response lacks the summary key. -/
theorem c8_error_uniformity_witness :
    rctChars.study_design = DesignInput.known StudyDesign.RCT ∧
    cochraneAssess (.truthy samplePaper) (.truthy rctChars)
        (.returns (some c8MissingSummaryResp)) =
      Except.error (wrapRoB (.keyError "summary")) ∧
    ∃ cause, wrapRoB (PyCause.keyError "summary") = wrapRoB cause :=
  ⟨rfl, rfl, c8_error_uniformity.1 samplePaper rctChars
    (.returns (some c8MissingSummaryResp)) (wrapRoB (.keyError "summary")) rfl rfl⟩

/-- C9: whenever the upstream target-trial string is supplied but empty or
shorter than 20 characters, the returned assessment carries the description
synthesized from the characteristics fields; at the concrete scenario the
synthesized description contains the four supplied field values. -/
theorem c9_target_trial_synthesis :
    (∀ (p : Paper) (c : Characteristics) (data : RawRobinsResponse)
        (a : ROBINSIAssessment) (t : String),
      data.target_trial = some t →
      (t.isEmpty = true ∨ t.length < 20) →
      robinsAssess (.truthy p) (.truthy c) (.returns (some data)) = Except.ok a →
      a.target_trial_description = synthTargetTrial c) ∧
    ((robinsAssess (.truthy samplePaper) (.truthy c9Chars)
          (.returns (some c9Resp))).map (fun a => a.target_trial_description) =
        Except.ok (synthTargetTrial c9Chars) ∧
      containsStr (synthTargetTrial c9Chars) "Adults 40-65" ∧
      containsStr (synthTargetTrial c9Chars) "Daily exercise" ∧
      containsStr (synthTargetTrial c9Chars) "No structured exercise" ∧
      containsStr (synthTargetTrial c9Chars) "Cardiovascular events") := by
  constructor
  · intro p c data a t ht hshort h
    rw [robinsAssess_ok_target p c data a h]
    simp only [robinsTargetTrial, ht, Option.getD_some]
    rcases hshort with hs | hs
    · rw [if_pos (by simp [hs])]
    · rw [if_pos (by simp [hs])]
  · refine ⟨rfl, ?_, ?_, ?_, ?_⟩
    · exact ⟨"Hypothetical RCT comparing Daily exercise vs No structured exercise in ",
        " measuring Cardiovascular events", by rfl⟩
    · exact ⟨"Hypothetical RCT comparing ",
        " vs No structured exercise in Adults 40-65 measuring Cardiovascular events",
        by rfl⟩
    · exact ⟨"Hypothetical RCT comparing Daily exercise vs ",
        " in Adults 40-65 measuring Cardiovascular events", by rfl⟩
    · exact ⟨"Hypothetical RCT comparing Daily exercise vs No structured exercise " ++
        "in Adults 40-65 measuring ", "", by rfl⟩

/-- Witness for C9 at the concrete scenario run. -/
theorem c9_target_trial_synthesis_witness :
    c9Resp.target_trial = some "" ∧
    robinsAssess (.truthy samplePaper) (.truthy c9Chars) (.returns (some c9Resp)) =
      Except.ok c9Expected ∧
    c9Expected.target_trial_description = synthTargetTrial c9Chars :=
  ⟨rfl, rfl,
    c9_target_trial_synthesis.1 samplePaper c9Chars c9Resp c9Expected ""
      rfl (Or.inl rfl) rfl⟩

/-- C10: the input validation is a truthiness check: for every falsy paper
argument (None or a falsy-evaluating object) all three engines raise the
bare ValueError of the paper null check, whatever the characteristics,
design and upstream outcome are; with a truthy paper and a falsy
characteristics argument they raise the characteristics ValueError.  The
result never depends on the llm argument, so the error precedes the
applicability check, section extraction and upstream call. -/
theorem c10_truthiness_validation :
    ∀ (pp : Arg Paper) (cc : Arg Characteristics)
      (lg : LLMOutcome RawGRADEResponse) (lr : LLMOutcome RawRobinsResponse)
      (lc : LLMOutcome RawRoBResponse),
    (pp.isTruthy = false →
      gradeAssess pp cc lg = Except.error (.valueError "paper cannot be None") ∧
      robinsAssess pp cc lr = Except.error (.valueError "paper cannot be None") ∧
      cochraneAssess pp cc lc = Except.error (.valueError "paper cannot be None")) ∧
    (pp.isTruthy = true → cc.isTruthy = false →
      gradeAssess pp cc lg =
        Except.error (.valueError "characteristics cannot be None") ∧
      robinsAssess pp cc lr =
        Except.error (.valueError "characteristics cannot be None") ∧
      cochraneAssess pp cc lc =
        Except.error (.valueError "characteristics cannot be None")) := by
  intro pp cc lg lr lc
  refine ⟨fun hp => ?_, fun hp hc => ?_⟩
  · cases pp with
    | pyNone => exact ⟨rfl, rfl, rfl⟩
    | falsy _ => exact ⟨rfl, rfl, rfl⟩
    | truthy _ => simp [Arg.isTruthy] at hp
  · cases pp with
    | pyNone => simp [Arg.isTruthy] at hp
    | falsy _ => simp [Arg.isTruthy] at hp
    | truthy _ =>
      cases cc with
      | pyNone => exact ⟨rfl, rfl, rfl⟩
      | falsy _ => exact ⟨rfl, rfl, rfl⟩
      | truthy _ => simp [Arg.isTruthy] at hc

/-- Witness for C10 at a falsy (but non-None) paper object. -/
theorem c10_truthiness_validation_witness :
    (Arg.falsy samplePaper).isTruthy = false ∧
    gradeAssess (Arg.falsy samplePaper) (.truthy rctChars) (.returns none) =
      Except.error (.valueError "paper cannot be None") ∧
    robinsAssess (Arg.falsy samplePaper) (.truthy rctChars) (.returns none) =
      Except.error (.valueError "paper cannot be None") ∧
    cochraneAssess (Arg.falsy samplePaper) (.truthy rctChars) (.returns none) =
      Except.error (.valueError "paper cannot be None") :=
  ⟨rfl, (c10_truthiness_validation (Arg.falsy samplePaper) (.truthy rctChars)
    (.returns none) (.returns none) (.returns none)).1 rfl⟩

end Theorems

end QA
